import Mathlib

/-!
Verification development for the `json_logging` package
(`src/json_logging/__init__.py`).

The Python module is shallowly embedded: module-level mutable globals become an
explicit `LoggingState` threaded through the operations, Python `dict`s become
association lists with Python's `d[k] = v` / `d.update(...)` semantics
(replace-in-place for an existing key, append otherwise), and functions that
can `raise` return `Except`.  Machine-independent values (timestamps, ids,
header contents) are abstracted as parameters exactly where the source obtains
them from external collaborators (the `datetime` clock, the framework adapter
objects, `uuid.uuid1`).
-/

namespace JsonLogging

/-- A Python value stored in a log object / log-record attribute.  `container`
abstracts nested `dict`/`list`/`tuple`-like values (their inner structure is
irrelevant to every property proved here); `other` is a value outside the
source's `EASY_TYPES`, carrying the string `repr(value)` the source would
store for it. -/
inductive PyVal where
  | str (s : String)
  | int (n : Int)
  | bool (b : Bool)
  | pynone
  | container (tag : String)
  | other (reprStr : String)
deriving DecidableEq, Repr

/-- `isinstance(value, EASY_TYPES)` : everything except a non-JSON-native
object (source line 45/48: str, bool, dict, float, int, list, NoneType). -/
def PyVal.isEasy : PyVal → Bool
  | .other _ => false
  | _ => true

/-- The value `_get_extra_fields` stores for a record attribute: easy types
pass through unchanged, anything else degrades to `repr(value)`. -/
def PyVal.toStored : PyVal → PyVal
  | .other r => .str r
  | v => v

/-- A Python `dict` with `String` keys, in insertion order. -/
abbrev PyDict (α : Type) := List (String × α)

/-- A JSON log object being assembled (a Python `dict`). -/
abbrev Obj := PyDict PyVal

/-- `d[k]` (as `Option`): first entry with the given key. -/
def pyGet {α : Type} : PyDict α → String → Option α
  | [], _ => Option.none
  | (k1, v) :: rest, k => if k1 = k then some v else pyGet rest k

/-- `d[k] = v`: replace the value in place if the key is present, append the
pair otherwise (Python dict assignment semantics). -/
def pySet {α : Type} : PyDict α → String → α → PyDict α
  | [], k, v => [(k, v)]
  | (k1, v1) :: rest, k, v =>
      if k1 = k then (k, v) :: rest else (k1, v1) :: pySet rest k v

/-- `d.update(u)`: apply every assignment of `u`, left to right. -/
def pyUpdate {α : Type} : PyDict α → PyDict α → PyDict α
  | d, [] => d
  | d, (k, v) :: rest => pyUpdate (pySet d k v) rest

/-- `list(d.keys())`. -/
def pyKeys {α : Type} (d : PyDict α) : List String := d.map Prod.fst

/-- `k in d`. -/
def pyHasKey {α : Type} (d : PyDict α) (k : String) : Bool := decide (k ∈ pyKeys d)

/-! ## Module-level constants of `json_logging/__init__.py` -/

/-- Source line 20: the empty-value sentinel. -/
def EMPTY_VALUE : String := "-"

/-- Source line 19: debug logging of the library itself; `False` and never
reassigned anywhere in the module. -/
def ENABLE_JSON_LOGGING_DEBUG : Bool := false

/-- Source line 21. -/
def CREATE_CORRELATION_ID_IF_NOT_EXISTS : Bool := true

/-- Source line 23. -/
def CORRELATION_ID_HEADERS : List String := ["X-Correlation-ID", "X-Request-ID"]

/-- Source lines 30-37 plus the Python-3 `stack_info` append on line 47:
record attributes `_get_extra_fields` skips (the source lists `msecs`
twice; kept verbatim). -/
def RECORD_ATTR_SKIP_LIST : List String :=
  ["asctime", "created", "exc_info", "exc_text", "filename", "args",
   "funcName", "id", "levelname", "levelno", "lineno", "module", "msg",
   "msecs", "msecs", "message", "name", "pathname", "process",
   "processName", "relativeCreated", "thread", "threadName", "extra",
   "props", "stack_info"]

/-- The standard `logging.LogRecord` attribute names of the Python version
this module targets (the documentation list the source's comment on lines
28-29 points at). -/
def standard_record_attrs : List String :=
  ["name", "msg", "args", "levelname", "levelno", "pathname", "filename",
   "module", "exc_info", "exc_text", "stack_info", "lineno", "funcName",
   "created", "msecs", "relativeCreated", "thread", "threadName",
   "processName", "process"]

/-! ## Log records

A `logging.LogRecord` as the formatters read it.  The standard attributes the
formatters access by name are structure fields; every *additional* attribute
of `record.__dict__` (the ones attached via `extra=...`) is in `extras`.
Folding `_get_extra_fields`'s loop over only `extras` is justified by
`standard_attrs_all_skipped` below: every standard attribute name is in
`RECORD_ATTR_SKIP_LIST`, so the loop drops all of them. -/

structure LogRecord where
  /-- `record.name`. -/
  name : String
  /-- `record.msg`, the raw (unformatted) message object. -/
  msg : PyVal
  /-- truthiness of `record.args`. -/
  args : Bool
  levelname : String
  threadName : String
  module : String
  filename : String
  lineno : Int
  /-- truthiness of `record.exc_info`. -/
  exc_info : Bool
  /-- `record.exc_text` (`""` models the falsy `None`/empty cases). -/
  exc_text : String
  /-- the text `''.join(traceback.format_exception(*record.exc_info))`
  would produce; external to the module. -/
  formatted_traceback : String
  /-- result of `record.getMessage()`. -/
  getMessage : String
  /-- attributes of `record.__dict__` beyond the standard ones. -/
  extras : List (String × PyVal)
  /-- `record.props` when present and a `dict`. -/
  props : Option Obj
deriving DecidableEq, Repr

/-- `BaseJSONFormatter._get_extra_fields` (source lines 297-314). -/
def get_extra_fields (r : LogRecord) : Obj :=
  let f0 : Obj := if r.args then [("msg", r.msg)] else []
  let f1 : Obj := r.extras.foldl
    (fun acc kv =>
      if kv.1 ∈ RECORD_ATTR_SKIP_LIST then acc else pySet acc kv.1 kv.2.toStored)
    f0
  match r.props with
  | some p => pyUpdate f1 p
  | Option.none => f1

/-- `BaseJSONFormatter.__init__` (source lines 273-280), acting on the single
class-level dict `base_object_common`.  In the source the constructor mutates
`BaseJSONFormatter.base_object_common` in place (the instance never rebinds
the attribute), so the dict is one process-wide object shared by every
instance of `BaseJSONFormatter` and its subclasses; it is modelled as an
explicit piece of process state that each construction transforms.  The
`component_instance_index != EMPTY_VALUE` comparison in the source compares
an `int` with the string `'-'` and is always true in Python 3, so the guard
reduces to the truthiness test `component_instance_index ≠ 0`. -/
def formatter_construct (component_id component_name : String)
    (component_instance_index : Int) (base_object_common : Obj) : Obj :=
  let b1 := if component_id ≠ "" ∧ component_id ≠ EMPTY_VALUE then
      pySet base_object_common "component_id" (PyVal.str component_id)
    else base_object_common
  let b2 := if component_name ≠ "" ∧ component_name ≠ EMPTY_VALUE then
      pySet b1 "component_name" (PyVal.str component_name)
    else b1
  if component_instance_index ≠ 0 then
    pySet b2 "component_instance_idx" (PyVal.int component_instance_index)
  else b2

/-- `BaseJSONFormatter._format_log_object` (source lines 286-295).
`written_at` (`util.iso_time_format(utcnow)`) and `written_ts`
(`util.epoch_nano_second(utcnow)`) are values of the external clock/util
module and enter as parameters. -/
def base_format_log_object (written_at : String) (written_ts : Int)
    (base_object_common : Obj) (r : LogRecord) : Obj :=
  pyUpdate
    (pyUpdate [("written_at", PyVal.str written_at), ("written_ts", PyVal.int written_ts)]
      base_object_common)
    (get_extra_fields r)

/-- `_sanitize_log_msg` (source lines 354-355). -/
def sanitize_log_msg (s : String) : String :=
  ((s.replace "\n" "_").replace "\r" "_").replace "\t" "_"

/-- `JSONLogFormatter.get_exc_fields` (source lines 363-371). -/
def get_exc_fields (r : LogRecord) : Obj :=
  [("exc_info", PyVal.str (if r.exc_info then r.formatted_traceback else r.exc_text)),
   ("filename", PyVal.str r.filename)]

/-- `JSONLogFormatter._format_log_object` (source lines 377-392). -/
def log_format_log_object (written_at : String) (written_ts : Int)
    (base_object_common : Obj) (r : LogRecord) : Obj :=
  let o := pyUpdate (base_format_log_object written_at written_ts base_object_common r)
    [("msg", PyVal.str (sanitize_log_msg r.getMessage)),
     ("type", PyVal.str "log"),
     ("logger", PyVal.str r.name),
     ("thread", PyVal.str r.threadName),
     ("level", PyVal.str r.levelname),
     ("module", PyVal.str r.module),
     ("line_no", PyVal.int r.lineno)]
  if r.exc_info || r.exc_text ≠ "" then pyUpdate o (get_exc_fields r) else o

/-- `JSONLogWebFormatter._format_log_object` (source lines 400-406).
`within_formatter_value` is the string
`request_util.get_correlation_id(within_formatter=True)` returns. -/
def weblog_format_log_object (written_at : String) (written_ts : Int)
    (base_object_common : Obj) (r : LogRecord) (within_formatter_value : String) : Obj :=
  let o := log_format_log_object written_at written_ts base_object_common r
  if pyHasKey o "correlation_id" then o
  else pyUpdate o [("correlation_id", PyVal.str within_formatter_value)]

/-- Modelled from the spec: `util.parse_int` (module `json_logging.util` is
not under src); section 4.4 specifies `request_size_b` as "parsed as
integer, -1 if unparseable". -/
def parse_int (s : String) (default : Int) : Int :=
  (s.toInt?).getD default

/-- The values the request/response adapters of the active framework return
for one request/response pair.  The adapter classes are external
collaborators (section 4.1); each accessor result enters as a field. -/
structure RequestAdapterView where
  correlation_id : String
  remote_user : String
  path : String
  referer : String
  x_forwarded_for : String
  protocol : String
  method : String
  remote_ip : String
  /-- `request_adapter.get_content_length(request)`, as the string handed to
  `util.parse_int`. -/
  content_length : String
  remote_port : Int
  response_status : Int
  response_size : Int
  response_content_type : String
deriving DecidableEq, Repr

/-- The explicit fixed request fields of
`JSONRequestLogFormatter._format_log_object` (source lines 331-347), in
source order.  `remote_host` is read with `get_remote_ip` in the source. -/
def request_explicit_fields (v : RequestAdapterView) : Obj :=
  [("type", PyVal.str "request"),
   ("correlation_id", PyVal.str v.correlation_id),
   ("remote_user", PyVal.str v.remote_user),
   ("request", PyVal.str v.path),
   ("referer", PyVal.str v.referer),
   ("x_forwarded_for", PyVal.str v.x_forwarded_for),
   ("protocol", PyVal.str v.protocol),
   ("method", PyVal.str v.method),
   ("remote_ip", PyVal.str v.remote_ip),
   ("request_size_b", PyVal.int (parse_int v.content_length (-1))),
   ("remote_host", PyVal.str v.remote_ip),
   ("remote_port", PyVal.int v.remote_port),
   ("response_status", PyVal.int v.response_status),
   ("response_size_b", PyVal.int v.response_size),
   ("response_content_type", PyVal.str v.response_content_type)]

/-- `JSONRequestLogFormatter._format_log_object` (source lines 322-351):
the base-layer object, then one `update` with the explicit fixed request
fields, then one `update` with the full contents of the Lifecycle Data
Carrier `record.request_response_data`. -/
def request_format_log_object (written_at : String) (written_ts : Int)
    (base_object_common : Obj) (r : LogRecord) (v : RequestAdapterView)
    (carrier : Obj) : Obj :=
  pyUpdate
    (pyUpdate (base_format_log_object written_at written_ts base_object_common r)
      (request_explicit_fields v))
    carrier

/-! ## Lifecycle Data Carrier (`DefaultRequestResponseDTO`) -/

/-- `int(time_delta.total_seconds())` for a nonnegative `timedelta` of `s`
whole seconds plus `u` microseconds (Python keeps `0 ≤ u < 1000000`), in
exact arithmetic: truncation of the nonnegative real `(s*10^6 + u)/10^6`. -/
def total_seconds_trunc (s u : Nat) : Nat := (s * 1000000 + u) / 1000000

/-- The `response_time_ms` value computed on source line 161:
`int(time_delta.total_seconds()) * 1000 + int(time_delta.microseconds / 1000)`. -/
def response_time_ms_value (s u : Nat) : Nat :=
  total_seconds_trunc s u * 1000 + u / 1000

/-- `DefaultRequestResponseDTO.on_request_complete` (source lines 157-162):
mutates the carrier dict, storing `response_time_ms` and then
`response_sent_at` (the ISO-8601 string `util.iso_time_format(utcnow)`,
external clock/util).  The elapsed `utcnow - self._request_start` is `s`
seconds plus `u` microseconds. -/
def dto_on_request_complete (carrier : Obj) (s u : Nat) (sent_at_iso : String) : Obj :=
  pySet (pySet carrier "response_time_ms" (PyVal.int (Int.ofNat (response_time_ms_value s u))))
    "response_sent_at" (PyVal.str sent_at_iso)

/-! ## Framework registry and the one-time `__init` guard -/

/-- A Python class reference, abstracted to the one property the module
tests: whether `issubclass(cls, ExpectedBase)` holds for the base class the
call site checks it against. -/
structure ClassRef where
  satisfiesContract : Bool
deriving DecidableEq, Repr

/-- One value of `_framework_support_map` (source lines 90-95). -/
structure FrameworkEntry where
  app_configurator : Option ClassRef
  app_request_instrumentation_configurator : ClassRef
  request_adapter_class : ClassRef
  response_adapter_class : ClassRef
deriving DecidableEq, Repr

/-- `_framework_support_map`: a dict keyed by lower-cased framework name. -/
abbrev Registry := PyDict FrameworkEntry

/-- Python's `name.lower()` on framework names, defined over the underlying
character list so the kernel can evaluate it on concrete names. -/
def py_lower (s : String) : String := String.mk (s.data.map Char.toLower)

instance exceptDecEq {ε α : Type} [DecidableEq ε] [DecidableEq α] :
    DecidableEq (Except ε α) :=
  fun x y =>
    match x, y with
    | Except.error e1, Except.error e2 =>
      if h : e1 = e2 then Decidable.isTrue (by rw [h])
      else Decidable.isFalse (by intro hh; cases hh; exact h rfl)
    | Except.ok v1, Except.ok v2 =>
      if h : v1 = v2 then Decidable.isTrue (by rw [h])
      else Decidable.isFalse (by intro hh; cases hh; exact h rfl)
    | Except.error _, Except.ok _ => Decidable.isFalse (by intro hh; cases hh)
    | Except.ok _, Except.error _ => Decidable.isFalse (by intro hh; cases hh)

/-- Modelled from the spec: `util.validate_subclass` (module
`json_logging.util` is not under src).  Per section 4.5 registration
"validates each class reference against its expected capability contract"
and a failing class raises a registration error, so the check is whether the
class satisfies its contract. -/
def validate_subclass_ok (c : ClassRef) : Bool := c.satisfiesContract

inductive RegError where
  | emptyName
  | invalidRequestAdapter
  | invalidResponseAdapter
  | invalidInstrConfigurator
  | invalidAppConfigurator
deriving DecidableEq, Repr

/-- `register_framework_support` (source lines 67-95), as a transformation of
the registry dict.  The returned `Bool` records whether the re-registration
warning was emitted: the source guards `_logger.warning` with
`ENABLE_JSON_LOGGING_DEBUG and ...` (line 89), so it fires only when both the
name is already registered and the debug flag is on. -/
def register_framework_support (debug : Bool) (name : Option String)
    (app_configurator : Option ClassRef)
    (app_request_instrumentation_configurator request_adapter_class
      response_adapter_class : ClassRef) (m : Registry) :
    Except RegError (Registry × Bool) :=
  match name with
  | Option.none => Except.error RegError.emptyName
  | some n =>
    if n = "" then Except.error RegError.emptyName
    else if ! validate_subclass_ok request_adapter_class then
      Except.error RegError.invalidRequestAdapter
    else if ! validate_subclass_ok response_adapter_class then
      Except.error RegError.invalidResponseAdapter
    else if ! validate_subclass_ok app_request_instrumentation_configurator then
      Except.error RegError.invalidInstrConfigurator
    else if app_configurator.any (fun c => ! validate_subclass_ok c) then
      Except.error RegError.invalidAppConfigurator
    else
      let nl := py_lower n
      let warned := (pyGet m nl).isSome && debug
      Except.ok
        (pySet m nl
          { app_configurator := app_configurator,
            app_request_instrumentation_configurator :=
              app_request_instrumentation_configurator,
            request_adapter_class := request_adapter_class,
            response_adapter_class := response_adapter_class },
         warned)

/-- The default formatter classes `__init` can select. -/
inductive Formatter where
  | JSONLogFormatter
  | JSONLogWebFormatter
  | JSONRequestLogFormatter
  | customFormatter (c : ClassRef)
deriving DecidableEq, Repr

/-- The module-level mutable globals of `json_logging/__init__.py` that the
initialization functions read and write. -/
structure LoggingState where
  framework_support_map : Registry
  /-- `_current_framework` (`None` until a web-framework init succeeds). -/
  current_framework : Option FrameworkEntry
  /-- `ENABLE_JSON_LOGGING`. -/
  enable_json_logging : Bool
  /-- `_default_formatter` (`None` before any init). -/
  default_formatter : Option Formatter
deriving DecidableEq, Repr

inductive InitError where
  | alreadyInited
  | badCustomFormatter
  | unsupportedFramework
deriving DecidableEq, Repr

/-- Source lines 206-212: the tail of `__init`.  At this point
`ENABLE_JSON_LOGGING` already equals the `enable_json` argument (line 179),
so the `else` branch's `ENABLE_JSON_LOGGING = True` only confirms it; the
`logging._defaultFormatter` installation is external logging machinery. -/
def finish_init (enable_json : Bool) (st : LoggingState) : LoggingState :=
  if !enable_json && !st.enable_json_logging then st
  else { st with enable_json_logging := true }

/-- The `custom_formatter if custom_formatter else <default>` selection of
source lines 202 and 204. -/
def default_formatter_choice (custom_formatter : Option ClassRef)
    (fallback : Formatter) : Formatter :=
  match custom_formatter with
  | some c => Formatter.customFormatter c
  | Option.none => fallback

/-- `__init` (source lines 165-217).  A raise is an `Except.error` carrying
the global state at the moment of the raise: crucially, line 179 assigns
`ENABLE_JSON_LOGGING = enable_json` *before* the `_current_framework` guard
on line 180, so even a failing call has already overwritten that flag.
The branch on line 189 is `if framework_name:`, a Python truthiness test:
`None` *and* the empty string both take the non-web `else` branch (leaving
`_current_framework` as `None`); only a non-empty name is looked up in the
registry.  The `app_configurator().config()` invocation and the retrofit of
existing loggers are external side effects on the host logging facility and
do not touch these globals. -/
def init_core (framework_name : Option String) (custom_formatter : Option ClassRef)
    (enable_json : Bool) (st : LoggingState) :
    Except (InitError × LoggingState) LoggingState :=
  let st1 := { st with enable_json_logging := enable_json }
  if st1.current_framework.isSome then Except.error (InitError.alreadyInited, st1)
  else if custom_formatter.any (fun c => ! c.satisfiesContract) then
    Except.error (InitError.badCustomFormatter, st1)
  else
    match framework_name with
    | some fn =>
      if fn = "" then
        Except.ok (finish_init enable_json
          { st1 with
            default_formatter :=
              some (default_formatter_choice custom_formatter Formatter.JSONLogFormatter) })
      else
        match pyGet st1.framework_support_map (py_lower fn) with
        | Option.none => Except.error (InitError.unsupportedFramework, st1)
        | some entry =>
          Except.ok (finish_init enable_json
            { st1 with
              current_framework := some entry,
              default_formatter :=
                some (default_formatter_choice custom_formatter Formatter.JSONLogWebFormatter) })
    | Option.none =>
      Except.ok (finish_init enable_json
        { st1 with
          default_formatter :=
            some (default_formatter_choice custom_formatter Formatter.JSONLogFormatter) })

/-- `init_non_web` (source lines 119-120). -/
def init_non_web (custom_formatter : Option ClassRef) (enable_json : Bool)
    (st : LoggingState) : Except (InitError × LoggingState) LoggingState :=
  init_core Option.none custom_formatter enable_json st

/-- `init_flask` (source lines 418-419). -/
def init_flask (custom_formatter : Option ClassRef) (enable_json : Bool)
    (st : LoggingState) : Except (InitError × LoggingState) LoggingState :=
  init_core (some "flask") custom_formatter enable_json st

/-- `init_sanic` (source lines 433-434). -/
def init_sanic (custom_formatter : Option ClassRef) (enable_json : Bool)
    (st : LoggingState) : Except (InitError × LoggingState) LoggingState :=
  init_core (some "sanic") custom_formatter enable_json st

/-- `init_quart` (source lines 446-447). -/
def init_quart (custom_formatter : Option ClassRef) (enable_json : Bool)
    (st : LoggingState) : Except (InitError × LoggingState) LoggingState :=
  init_core (some "quart") custom_formatter enable_json st

/-- `init_connexion` (source lines 459-460). -/
def init_connexion (custom_formatter : Option ClassRef) (enable_json : Bool)
    (st : LoggingState) : Except (InitError × LoggingState) LoggingState :=
  init_core (some "connexion") custom_formatter enable_json st

/-- `init_fastapi` (source lines 473-474). -/
def init_fastapi (custom_formatter : Option ClassRef) (enable_json : Bool)
    (st : LoggingState) : Except (InitError × LoggingState) LoggingState :=
  init_core (some "fastapi") custom_formatter enable_json st

/-- Whether an `__init` outcome is the "Can not call init more than once"
`RuntimeError` of source line 181. -/
def raisesAlreadyInited : Except (InitError × LoggingState) LoggingState → Bool
  | Except.error (InitError.alreadyInited, _) => true
  | _ => false

inductive InstrError where
  | notInited
  | badCustomFormatter
  | badExtractorClass
deriving DecidableEq, Repr

/-- The successful outcome of `init_request_instrument`:
`configurator.config(app, ...)` has installed the hooks on the application
and the request logger got this formatter. -/
structure InstrResult where
  app_configured : Bool
  request_formatter : Formatter
deriving DecidableEq, Repr

/-- `init_request_instrument` (source lines 220-251).  The
`configurator.config(app, ...)` call that touches the application instance
only happens on the success path (it is the first statement after the three
guards), so an error outcome leaves the application untouched by
construction.  `extractor_is_dto_subclass` is
`issubclass(request_response_data_extractor_class, RequestResponseDTOBase)`.
The source's guard also tests `_current_framework == '-'`; `_current_framework`
is only ever `None` or a registry entry (a dict), never the string `'-'`,
so the test reduces to the `None` check. -/
def init_request_instrument (custom_formatter : Option ClassRef)
    (extractor_is_dto_subclass : Bool) (st : LoggingState) :
    Except InstrError InstrResult :=
  if st.current_framework.isNone then Except.error InstrError.notInited
  else if custom_formatter.any (fun c => ! c.satisfiesContract) then
    Except.error InstrError.badCustomFormatter
  else if ! extractor_is_dto_subclass then Except.error InstrError.badExtractorClass
  else
    Except.ok
      { app_configured := true,
        request_formatter := match custom_formatter with
          | some c => Formatter.customFormatter c
          | Option.none => Formatter.JSONRequestLogFormatter }

/-! ## Correlation-ID resolution

`get_correlation_id` (source lines 57-64) delegates to
`util.RequestUtil.get_correlation_id`; module `json_logging.util` is not
under src, so the resolver is modelled from the spec (section 4.2). -/

/-- A framework request as the resolver sees it: the correlation id the
adapter may have cached on the native request object
(`get_correlation_id` / `set_correlation_id`, for an adapter supporting
per-request attribute storage), and the request's headers. -/
structure Request where
  cached_id : Option String
  headers : List (String × String)
deriving DecidableEq, Repr

/-- First entry for a header name. -/
def header_lookup : List (String × String) → String → Option String
  | [], _ => Option.none
  | (h1, v) :: rest, h => if h1 = h then some v else header_lookup rest h

/-- Modelled from the spec: step 2 of section 4.2 — "scan configured header
names in declared order; first present non-empty value wins". -/
def scan_headers (cfg_headers : List String) (req_headers : List (String × String)) :
    Option String :=
  match cfg_headers with
  | [] => Option.none
  | h :: rest =>
    match header_lookup req_headers h with
    | some v => if v = "" then scan_headers rest req_headers else some v
    | Option.none => scan_headers rest req_headers

/-- The outcome of one resolution: the id, the request afterwards (with any
cache write applied), and whether the configured headers were scanned. -/
structure ResolveResult where
  value : String
  req : Request
  scanned_headers : Bool
deriving DecidableEq, Repr

/-- Modelled from the spec: `util.RequestUtil.get_correlation_id` with a
request, section 4.2 steps 1-4 (module `json_logging.util` is not under
src).  1: an id already on the request wins without a header scan; 2: else
the first present non-empty configured header wins and is cached onto the
request via the adapter's setter; 3: else, when generation-on-absence is
enabled, a freshly generated id (`CORRELATION_ID_GENERATOR`, abstracted as
`gen`) is cached and returned; 4: else the empty-value sentinel. -/
def resolve_correlation_id (cfg_headers : List String) (create_if_absent : Bool)
    (gen : String) (r : Request) : ResolveResult :=
  match r.cached_id with
  | some v => { value := v, req := r, scanned_headers := false }
  | Option.none =>
    match scan_headers cfg_headers r.headers with
    | some v => { value := v, req := { r with cached_id := some v }, scanned_headers := true }
    | Option.none =>
      if create_if_absent then
        { value := gen, req := { r with cached_id := some gen }, scanned_headers := true }
      else
        { value := EMPTY_VALUE, req := r, scanned_headers := true }

/-! ## Concrete fixtures (the module's state right after import) -/

/-- A class reference passing its capability check. -/
def okClass : ClassRef := { satisfiesContract := true }

/-- A registry entry as the flask/quart/connexion registrations build it
(no app pre-configurator). -/
def plainEntry : FrameworkEntry :=
  { app_configurator := Option.none,
    app_request_instrumentation_configurator := okClass,
    request_adapter_class := okClass,
    response_adapter_class := okClass }

/-- The sanic entry (has an app pre-configurator, source lines 427-430). -/
def sanicEntry : FrameworkEntry :=
  { app_configurator := some okClass,
    app_request_instrumentation_configurator := okClass,
    request_adapter_class := okClass,
    response_adapter_class := okClass }

/-- `_framework_support_map` after the module-bottom registrations (source
lines 409-470; the fastapi entry is added only when fastapi is importable —
included here). -/
def initialRegistry : Registry :=
  [("flask", plainEntry), ("sanic", sanicEntry), ("quart", plainEntry),
   ("connexion", plainEntry), ("fastapi", plainEntry)]

/-- The module globals right after import, with the `ENABLE_JSON_LOGGING`
env toggle unset (source lines 15-17, 50-54). -/
def freshState : LoggingState :=
  { framework_support_map := initialRegistry,
    current_framework := Option.none,
    enable_json_logging := false,
    default_formatter := Option.none }

/-- The state after a successful `init_flask(enable_json=True)` on the fresh
module. -/
def stateAfterFlaskInit : LoggingState :=
  { framework_support_map := initialRegistry,
    current_framework := some plainEntry,
    enable_json_logging := true,
    default_formatter := some Formatter.JSONLogWebFormatter }

/-- The state after a successful `init_non_web()` on the fresh module:
`_current_framework` is still `None`. -/
def stateAfterNonWebInit : LoggingState :=
  { framework_support_map := initialRegistry,
    current_framework := Option.none,
    enable_json_logging := false,
    default_formatter := some Formatter.JSONLogFormatter }

/-- The state a failing second `__init(enable_json=False)` call leaves
behind after `init_flask(enable_json=True)`. -/
def stateAfterFailedSecondInit : LoggingState :=
  { stateAfterFlaskInit with enable_json_logging := false }

/-- A class reference failing its capability check. -/
def badClass : ClassRef := { satisfiesContract := false }

/-- A concrete log record with no extra attributes, no `props` and no
exception information. -/
def sampleRecord : LogRecord :=
  { name := "request_logger",
    msg := PyVal.str "m",
    args := false,
    levelname := "INFO",
    threadName := "MainThread",
    module := "app",
    filename := "app.py",
    lineno := 10,
    exc_info := false,
    exc_text := "",
    formatted_traceback := "",
    getMessage := "m",
    extras := [],
    props := Option.none }

/-- Concrete adapter readings for one request/response pair. -/
def sampleView : RequestAdapterView :=
  { correlation_id := "cid-1",
    remote_user := "-",
    path := "/",
    referer := "-",
    x_forwarded_for := "-",
    protocol := "HTTP/1.1",
    method := "GET",
    remote_ip := "127.0.0.1",
    content_length := "42",
    remote_port := 1234,
    response_status := 200,
    response_size := 5,
    response_content_type := "text/html" }

/-- A concrete Lifecycle Data Carrier whose `correlation_id` entry collides
with the explicit fixed request fields. -/
def sampleCarrier : Obj :=
  [("correlation_id", PyVal.str "abc"), ("custom_field", PyVal.str "x")]

/-! ## Dictionary lemmas -/

theorem pyGet_pySet_self {α : Type} (d : PyDict α) (k : String) (v : α) :
    pyGet (pySet d k v) k = some v := by
  induction d with
  | nil => simp [pySet, pyGet]
  | cons p rest ih =>
    obtain ⟨k1, v1⟩ := p
    by_cases h : k1 = k
    · simp [pySet, h, pyGet]
    · simp [pySet, h, pyGet, ih]

theorem pyGet_pySet_ne {α : Type} (d : PyDict α) (k k' : String) (v : α) (h : k' ≠ k) :
    pyGet (pySet d k v) k' = pyGet d k' := by
  have hkk : k ≠ k' := Ne.symm h
  induction d with
  | nil => simp [pySet, pyGet, hkk]
  | cons p rest ih =>
    obtain ⟨k1, v1⟩ := p
    by_cases h1 : k1 = k
    · subst h1
      simp [pySet, pyGet, hkk]
    · simp [pySet, pyGet, h1, ih]

@[simp]
theorem pyKeys_nil {α : Type} : pyKeys ([] : PyDict α) = [] := rfl

@[simp]
theorem pyKeys_cons {α : Type} (k : String) (v : α) (d : PyDict α) :
    pyKeys ((k, v) :: d) = k :: pyKeys d := rfl

theorem mem_pyKeys_pySet {α : Type} (d : PyDict α) (k x : String) (v : α) :
    x ∈ pyKeys (pySet d k v) ↔ x ∈ pyKeys d ∨ x = k := by
  induction d with
  | nil => simp [pySet]
  | cons p rest ih =>
    obtain ⟨k1, v1⟩ := p
    by_cases h : k1 = k
    · subst h
      simp [pySet]
      tauto
    · simp [pySet, h, ih]
      tauto

theorem mem_pyKeys_pyUpdate {α : Type} (d u : PyDict α) (x : String) :
    x ∈ pyKeys (pyUpdate d u) ↔ x ∈ pyKeys d ∨ x ∈ pyKeys u := by
  induction u generalizing d with
  | nil => simp [pyUpdate]
  | cons p rest ih =>
    obtain ⟨k1, v1⟩ := p
    rw [pyUpdate, ih, mem_pyKeys_pySet]
    simp
    tauto

theorem pyGet_pyUpdate_not_mem {α : Type} (d u : PyDict α) (k : String)
    (h : k ∉ pyKeys u) : pyGet (pyUpdate d u) k = pyGet d k := by
  induction u generalizing d with
  | nil => simp [pyUpdate]
  | cons p rest ih =>
    obtain ⟨k1, v1⟩ := p
    simp at h
    push_neg at h
    rw [pyUpdate, ih _ h.2, pyGet_pySet_ne _ _ _ _ h.1]

theorem pyGet_pyUpdate_mem {α : Type} (d u : PyDict α) (k : String)
    (hnd : (pyKeys u).Nodup) (h : k ∈ pyKeys u) :
    pyGet (pyUpdate d u) k = pyGet u k := by
  induction u generalizing d with
  | nil => simp at h
  | cons p rest ih =>
    obtain ⟨k1, v1⟩ := p
    simp [List.nodup_cons] at hnd h
    rcases h with rfl | h
    · rw [pyUpdate, pyGet_pyUpdate_not_mem _ _ _ hnd.1, pyGet_pySet_self]
      simp [pyGet]
    · have hne : k1 ≠ k := fun hh => hnd.1 (hh ▸ h)
      rw [pyUpdate, ih _ hnd.2 h]
      simp [pyGet, hne]

theorem pyHasKey_iff {α : Type} (d : PyDict α) (k : String) :
    pyHasKey d k = true ↔ k ∈ pyKeys d := by
  simp [pyHasKey]

/-! ## Model-justification lemmas -/

/-- Every standard record attribute name is in `RECORD_ATTR_SKIP_LIST`, so
the `_get_extra_fields` loop drops every standard attribute of
`record.__dict__`; restricting the embedded loop to the non-standard
`extras` is therefore faithful. -/
theorem standard_attrs_all_skipped :
    ∀ a ∈ standard_record_attrs, a ∈ RECORD_ATTR_SKIP_LIST := by decide

/-- `finish_init` never changes `_current_framework`. -/
theorem finish_init_current_framework (enable_json : Bool) (st : LoggingState) :
    (finish_init enable_json st).current_framework = st.current_framework := by
  unfold finish_init
  split <;> rfl

/-- A successful `__init` with a truthy (non-empty) framework name leaves
`_current_framework` set. -/
theorem init_core_ok_isSome (n : String) (hn : n ≠ "") (cf : Option ClassRef)
    (ej : Bool) (st st' : LoggingState)
    (h : init_core (some n) cf ej st = Except.ok st') :
    st'.current_framework.isSome = true := by
  simp only [init_core] at h
  rw [if_neg hn] at h
  split at h
  · simp at h
  · split at h
    · simp at h
    · split at h
      · simp at h
      · injection h with h2
        subst h2
        rw [finish_init_current_framework]
        rfl

/-! ## Claims -/

/-- Claim C1, counterexample: after a first initialization that succeeded
through `init_non_web`, a second call to an initialization entry point
completes instead of raising — `_current_framework` is still `None`, so the
guard on source line 180 does not fire. -/
theorem c1_counterexample :
    init_non_web Option.none false freshState = Except.ok stateAfterNonWebInit ∧
    init_non_web Option.none false stateAfterNonWebInit = Except.ok stateAfterNonWebInit := by
  constructor <;> decide

/-- Claim C1, amended: after a first initialization that succeeded *with a
truthy (non-empty) framework name*, any second call to `__init` (hence to
any of the `init_*` entry points) raises the "Can not call init more than
once" configuration error.  (After a purely non-web first initialization —
`init_non_web`, or a falsy empty framework name, both of which leave
`_current_framework` as `None` — the guard does not fire; see the
counterexample.) -/
theorem c1_second_init_raises (n : String) (hn : n ≠ "") (cf : Option ClassRef)
    (ej : Bool) (st st' : LoggingState)
    (h : init_core (some n) cf ej st = Except.ok st')
    (fn2 : Option String) (cf2 : Option ClassRef) (ej2 : Bool) :
    raisesAlreadyInited (init_core fn2 cf2 ej2 st') = true := by
  have hs := init_core_ok_isSome n hn cf ej st st' h
  simp only [init_core]
  simp [hs, raisesAlreadyInited]

/-- Claim C1, witness: a concrete successful `init_flask` followed by a
concrete second call that raises. -/
theorem c1_witness :
    init_core (some "flask") Option.none true freshState = Except.ok stateAfterFlaskInit ∧
    raisesAlreadyInited (init_core (some "quart") Option.none false stateAfterFlaskInit) = true :=
  ⟨by decide,
   c1_second_init_raises "flask" (by decide) Option.none true freshState
     stateAfterFlaskInit (by decide) (some "quart") Option.none false⟩

/-- Claim C2 (confirmed): the request formatter builds the final object by
writing the fifteen explicit fixed request fields and then applying the
Lifecycle Data Carrier's contents as an update, so every key the carrier
defines ends with the carrier's value in the final object; keys the carrier
does not define keep the value of the explicit block stage. -/
theorem c2_carrier_update_wins (written_at : String) (written_ts : Int)
    (boc : Obj) (r : LogRecord) (v : RequestAdapterView) (carrier : Obj)
    (k1 k2 k3 : String)
    (hnd : (pyKeys carrier).Nodup) (hk1 : k1 ∈ pyKeys carrier)
    (hk2 : k2 ∈ pyKeys (request_explicit_fields v))
    (hk3 : k3 ∉ pyKeys carrier) :
    pyGet (request_format_log_object written_at written_ts boc r v carrier) k1
      = pyGet carrier k1 ∧
    k2 ∈ pyKeys (request_format_log_object written_at written_ts boc r v carrier) ∧
    pyGet (request_format_log_object written_at written_ts boc r v carrier) k3
      = pyGet (pyUpdate (base_format_log_object written_at written_ts boc r)
          (request_explicit_fields v)) k3 := by
  unfold request_format_log_object
  refine ⟨pyGet_pyUpdate_mem _ _ _ hnd hk1, ?_, pyGet_pyUpdate_not_mem _ _ _ hk3⟩
  rw [mem_pyKeys_pyUpdate, mem_pyKeys_pyUpdate]
  tauto

/-- Claim C2, witness: with a carrier defining `correlation_id`, the
carrier's value survives into the final object over the explicit block's
adapter-derived value. -/
theorem c2_witness :
    (pyKeys sampleCarrier).Nodup ∧
    pyGet (request_format_log_object "t" 0 [] sampleRecord sampleView sampleCarrier)
        "correlation_id" = pyGet sampleCarrier "correlation_id" ∧
    "method" ∈ pyKeys (request_format_log_object "t" 0 [] sampleRecord sampleView sampleCarrier) :=
  ⟨by decide,
   (c2_carrier_update_wins "t" 0 [] sampleRecord sampleView sampleCarrier
     "correlation_id" "method" "zzz" (by decide) (by decide) (by decide) (by decide)).1,
   (c2_carrier_update_wins "t" 0 [] sampleRecord sampleView sampleCarrier
     "correlation_id" "method" "zzz" (by decide) (by decide) (by decide) (by decide)).2.1⟩

/-- Claim C3 (confirmed): for a carrier completed `s` seconds plus `u`
microseconds after its start (`0 ≤ u < 1000000`), `on_request_complete`
stores `response_time_ms = floor(total_seconds) * 1000 + floor(u / 1000)
= s * 1000 + u / 1000`; in particular 1500 ms elapsed yields 1500, and
1999 ms elapsed yields 1999 (the truncating formula, not rounding). -/
theorem c3_response_time_truncation (carrier : Obj) (s u : Nat) (sent_at : String)
    (hu : u < 1000000) :
    pyGet (dto_on_request_complete carrier s u sent_at) "response_time_ms"
      = some (PyVal.int (Int.ofNat (s * 1000 + u / 1000))) ∧
    response_time_ms_value 1 500000 = 1500 ∧
    response_time_ms_value 1 999000 = 1999 := by
  have hts : total_seconds_trunc s u = s := by
    unfold total_seconds_trunc
    omega
  refine ⟨?_, by decide, by decide⟩
  unfold dto_on_request_complete
  rw [pyGet_pySet_ne _ _ _ _ (by decide), pyGet_pySet_self,
    response_time_ms_value, hts]

/-- Claim C3, witness: the carrier completed 1 second 999000 microseconds
after start stores 1999. -/
theorem c3_witness :
    pyGet (dto_on_request_complete [] 1 999000 "ts") "response_time_ms"
      = some (PyVal.int (Int.ofNat (1 * 1000 + 999000 / 1000))) :=
  (c3_response_time_truncation [] 1 999000 "ts" (by decide)).1

/-- Claim C5 (confirmed): for a record with no exception info, no `props`
and no attributes beyond the standard ones, the plain log formatter's
object has exactly the keys `written_at`, `written_ts`, the configured
component identity fields (the keys of `base_object_common`), and the
Log-layer fields `msg`, `type`, `logger`, `thread`, `level`, `module`,
`line_no`. -/
theorem c5_plain_log_key_set (written_at : String) (written_ts : Int)
    (boc : Obj) (r : LogRecord) (k : String)
    (hextras : r.extras = []) (hprops : r.props = Option.none)
    (hexc : r.exc_info = false) (hexct : r.exc_text = "") :
    k ∈ pyKeys (log_format_log_object written_at written_ts boc r) ↔
      k ∈ (["written_at", "written_ts"] ++ pyKeys boc ++
        ["msg", "type", "logger", "thread", "level", "module", "line_no"]) := by
  have hef : get_extra_fields r = if r.args then [("msg", r.msg)] else [] := by
    simp [get_extra_fields, hextras, hprops]
  simp only [log_format_log_object, base_format_log_object, hef]
  rw [if_neg (by simp [hexc, hexct])]
  rw [mem_pyKeys_pyUpdate, mem_pyKeys_pyUpdate, mem_pyKeys_pyUpdate]
  by_cases ha : r.args
  · simp [ha]
    tauto
  · simp [ha]
    tauto

/-- Claim C5, witness: a concrete plain record against a configured
component identity dict, checked at the key `type`. -/
theorem c5_witness :
    sampleRecord.extras = [] ∧
    ("type" ∈ pyKeys (log_format_log_object "t" 0
        [("component_id", PyVal.str "svc")] sampleRecord) ↔
      "type" ∈ (["written_at", "written_ts"] ++
        pyKeys [("component_id", PyVal.str "svc")] ++
        ["msg", "type", "logger", "thread", "level", "module", "line_no"])) :=
  ⟨rfl,
   c5_plain_log_key_set "t" 0 [("component_id", PyVal.str "svc")] sampleRecord
     "type" rfl rfl rfl rfl⟩

/-- Claim C6, counterexample: with the module's actual
`ENABLE_JSON_LOGGING_DEBUG = False`, a valid re-registration of the
already-registered case-folded name `flask` succeeds and overwrites — but
emits no warning (second component `false`), contrary to the claim that a
warning is emitted. -/
theorem c6_counterexample :
    register_framework_support ENABLE_JSON_LOGGING_DEBUG (some "Flask") Option.none
        okClass okClass okClass [("flask", plainEntry)]
      = Except.ok ([("flask", plainEntry)], false) := by
  decide

/-- Claim C6, amended: `register_framework_support` raises on an empty or
missing framework name and when a supplied class fails its capability
validation; a valid registration whose case-folded name already exists
never raises and overwrites the entry, but the re-registration warning is
emitted only when `ENABLE_JSON_LOGGING_DEBUG` is enabled (the emitted flag
equals `debug`), not unconditionally. -/
theorem c6_registration (debug : Bool) (ac : Option ClassRef)
    (instr req resp bad : ClassRef) (m : Registry) (n : String)
    (hn : n ≠ "")
    (hreq : req.satisfiesContract = true) (hresp : resp.satisfiesContract = true)
    (hinstr : instr.satisfiesContract = true)
    (hac : ac.any (fun c => ! c.satisfiesContract) = false)
    (hbad : bad.satisfiesContract = false)
    (hex : (pyGet m (py_lower n)).isSome = true) :
    register_framework_support debug Option.none ac instr req resp m
      = Except.error RegError.emptyName ∧
    register_framework_support debug (some "") ac instr req resp m
      = Except.error RegError.emptyName ∧
    register_framework_support debug (some n) ac instr bad resp m
      = Except.error RegError.invalidRequestAdapter ∧
    register_framework_support debug (some n) ac instr req bad m
      = Except.error RegError.invalidResponseAdapter ∧
    register_framework_support debug (some n) ac bad req resp m
      = Except.error RegError.invalidInstrConfigurator ∧
    register_framework_support debug (some n) (some bad) instr req resp m
      = Except.error RegError.invalidAppConfigurator ∧
    register_framework_support debug (some n) ac instr req resp m
      = Except.ok (pySet m (py_lower n)
          { app_configurator := ac,
            app_request_instrumentation_configurator := instr,
            request_adapter_class := req,
            response_adapter_class := resp }, debug) ∧
    pyGet (pySet m (py_lower n)
        { app_configurator := ac,
          app_request_instrumentation_configurator := instr,
          request_adapter_class := req,
          response_adapter_class := resp }) (py_lower n)
      = some { app_configurator := ac,
               app_request_instrumentation_configurator := instr,
               request_adapter_class := req,
               response_adapter_class := resp } := by
  refine ⟨rfl, by simp [register_framework_support], ?_, ?_, ?_, ?_, ?_,
    pyGet_pySet_self _ _ _⟩
  · simp [register_framework_support, hn, hbad, validate_subclass_ok, hinstr]
  · simp [register_framework_support, hn, hreq, hbad, validate_subclass_ok, hinstr]
  · simp [register_framework_support, hn, hreq, hresp, hbad, validate_subclass_ok]
  · simp [register_framework_support, hn, hreq, hresp, hinstr, hbad,
      validate_subclass_ok]
  · simp [register_framework_support, hn, hreq, hresp, hinstr, hac, hex,
      validate_subclass_ok]

/-- Claim C6, witness: with debug on, re-registering `Flask` over the
existing `flask` entry overwrites, warns, and does not raise; the error
branches fire on a missing name and on a failing request-adapter,
response-adapter, instrumentation-configurator or app-configurator class. -/
theorem c6_witness :
    register_framework_support true Option.none Option.none okClass okClass okClass
        [("flask", plainEntry)] = Except.error RegError.emptyName ∧
    register_framework_support true (some "Flask") Option.none okClass badClass okClass
        [("flask", plainEntry)] = Except.error RegError.invalidRequestAdapter ∧
    register_framework_support true (some "Flask") Option.none okClass okClass badClass
        [("flask", plainEntry)] = Except.error RegError.invalidResponseAdapter ∧
    register_framework_support true (some "Flask") Option.none badClass okClass okClass
        [("flask", plainEntry)] = Except.error RegError.invalidInstrConfigurator ∧
    register_framework_support true (some "Flask") (some badClass) okClass okClass okClass
        [("flask", plainEntry)] = Except.error RegError.invalidAppConfigurator ∧
    register_framework_support true (some "Flask") Option.none okClass okClass okClass
        [("flask", plainEntry)] = Except.ok ([("flask", plainEntry)], true) :=
  ⟨(c6_registration true Option.none okClass okClass okClass badClass
      [("flask", plainEntry)] "Flask" (by decide) (by decide) (by decide)
      (by decide) (by decide) (by decide) (by decide)).1,
   (c6_registration true Option.none okClass okClass okClass badClass
      [("flask", plainEntry)] "Flask" (by decide) (by decide) (by decide)
      (by decide) (by decide) (by decide) (by decide)).2.2.1,
   (c6_registration true Option.none okClass okClass okClass badClass
      [("flask", plainEntry)] "Flask" (by decide) (by decide) (by decide)
      (by decide) (by decide) (by decide) (by decide)).2.2.2.1,
   (c6_registration true Option.none okClass okClass okClass badClass
      [("flask", plainEntry)] "Flask" (by decide) (by decide) (by decide)
      (by decide) (by decide) (by decide) (by decide)).2.2.2.2.1,
   (c6_registration true Option.none okClass okClass okClass badClass
      [("flask", plainEntry)] "Flask" (by decide) (by decide) (by decide)
      (by decide) (by decide) (by decide) (by decide)).2.2.2.2.2.1,
   (c6_registration true Option.none okClass okClass okClass badClass
      [("flask", plainEntry)] "Flask" (by decide) (by decide) (by decide)
      (by decide) (by decide) (by decide) (by decide)).2.2.2.2.2.2.1⟩

/-- Claim C7 (confirmed): `init_request_instrument` on a state where
initialization has not been performed raises the "please init the logging
first" configuration error before touching the application (the
configurator call only exists on the success path), and `__init` with a
framework name unknown to the registry raises the "not a supported
framework" configuration error.  A framework name is a truthy (non-empty)
string: the empty string fails the `if framework_name:` truthiness test of
source line 189 and is treated as a *missing* name — the call then
completes as a non-web initialization instead of reaching the registry
lookup, as the last conjunct records. -/
theorem c7_guards (cf : Option ClassRef) (ex : Bool) (st : LoggingState)
    (h1 : st.current_framework = Option.none)
    (n : String) (hn : n ≠ "") (cf2 : Option ClassRef) (ej : Bool)
    (st2 : LoggingState)
    (h2 : st2.current_framework = Option.none)
    (h3 : cf2.any (fun c => ! c.satisfiesContract) = false)
    (h4 : pyGet st2.framework_support_map (py_lower n) = Option.none) :
    init_request_instrument cf ex st = Except.error InstrError.notInited ∧
    init_core (some n) cf2 ej st2 =
      Except.error (InitError.unsupportedFramework,
        { st2 with enable_json_logging := ej }) ∧
    init_core (some "") cf2 ej st2 =
      Except.ok (finish_init ej
        { st2 with
          enable_json_logging := ej,
          default_formatter :=
            some (default_formatter_choice cf2 Formatter.JSONLogFormatter) }) := by
  refine ⟨?_, ?_, ?_⟩
  · simp [init_request_instrument, h1]
  · simp [init_core, h2, h3, hn, h4]
  · simp [init_core, h2, h3]

/-- Claim C7, witness: concrete uninitialized state and a concrete unknown
framework name. -/
theorem c7_witness :
    init_request_instrument Option.none true freshState
      = Except.error InstrError.notInited ∧
    init_core (some "bottle") Option.none false freshState =
      Except.error (InitError.unsupportedFramework,
        { freshState with enable_json_logging := false }) :=
  ⟨(c7_guards Option.none true freshState rfl "bottle" (by decide) Option.none
      false freshState rfl rfl (by decide)).1,
   (c7_guards Option.none true freshState rfl "bottle" (by decide) Option.none
      false freshState rfl rfl (by decide)).2.1⟩

/-- Claim C8 (confirmed): the web log formatter's object always contains
`correlation_id`; when the log-layer object already contains it, its value
is left unchanged, and only otherwise is the within-formatter resolved
value added. -/
theorem c8_weblog_correlation_id (written_at : String) (written_ts : Int)
    (boc : Obj) (r : LogRecord) (wfv : String) :
    pyHasKey (weblog_format_log_object written_at written_ts boc r wfv)
        "correlation_id" = true ∧
    pyGet (weblog_format_log_object written_at written_ts boc r wfv) "correlation_id"
      = (if pyHasKey (log_format_log_object written_at written_ts boc r)
              "correlation_id" = true
         then pyGet (log_format_log_object written_at written_ts boc r)
                "correlation_id"
         else some (PyVal.str wfv)) := by
  by_cases h : pyHasKey (log_format_log_object written_at written_ts boc r)
      "correlation_id" = true
  · simp [weblog_format_log_object, h]
  · constructor
    · have hmem : "correlation_id" ∉
          pyKeys (log_format_log_object written_at written_ts boc r) := by
        simpa [pyHasKey] using h
      simp [weblog_format_log_object, pyHasKey, hmem, mem_pyKeys_pyUpdate]
    · simp only [weblog_format_log_object]
      rw [if_neg h, if_neg h]
      rw [pyGet_pyUpdate_mem _ _ _ (by simp) (by simp)]
      simp [pyGet]

/-- Claim C9 (confirmed, spec-modelled resolver): with the module's
`CREATE_CORRELATION_ID_IF_NOT_EXISTS = True`, resolving the correlation id
twice for the same request returns the identical string both times, and the
second resolution reads the id cached on the request instead of scanning
the configured headers. -/
theorem c9_resolution_idempotent (cfg_headers : List String) (gen1 gen2 : String)
    (r : Request) :
    (resolve_correlation_id cfg_headers CREATE_CORRELATION_ID_IF_NOT_EXISTS gen2
        (resolve_correlation_id cfg_headers CREATE_CORRELATION_ID_IF_NOT_EXISTS
          gen1 r).req).value
      = (resolve_correlation_id cfg_headers CREATE_CORRELATION_ID_IF_NOT_EXISTS
          gen1 r).value ∧
    (resolve_correlation_id cfg_headers CREATE_CORRELATION_ID_IF_NOT_EXISTS gen2
        (resolve_correlation_id cfg_headers CREATE_CORRELATION_ID_IF_NOT_EXISTS
          gen1 r).req).scanned_headers = false := by
  cases hc : r.cached_id with
  | some v => simp [resolve_correlation_id, hc]
  | none =>
    cases hs : scan_headers cfg_headers r.headers with
    | some v => simp [resolve_correlation_id, hc, hs]
    | none => simp [resolve_correlation_id, hc, hs, CREATE_CORRELATION_ID_IF_NOT_EXISTS]

/-- Claim C10 (confirmed): constructing a formatter while component identity
fields are configured inserts them into the single class-level
`base_object_common` dict (one shared process-wide object, modelled as
explicit state), existing entries are never removed, and every object
formatted against the resulting dict — by any formatter instance, earlier
or later — contains the inserted `component_id`. -/
theorem c10_shared_identity_dict (cid cname : String) (cidx : Int) (boc : Obj)
    (k written_at : String) (written_ts : Int) (r : LogRecord)
    (hk : k ∈ pyKeys boc)
    (h1 : cid ≠ "" ∧ cid ≠ EMPTY_VALUE)
    (h2 : cname ≠ "" ∧ cname ≠ EMPTY_VALUE)
    (h3 : cidx ≠ 0) :
    k ∈ pyKeys (formatter_construct cid cname cidx boc) ∧
    pyGet (formatter_construct cid cname cidx boc) "component_id"
      = some (PyVal.str cid) ∧
    pyGet (formatter_construct cid cname cidx boc) "component_name"
      = some (PyVal.str cname) ∧
    pyGet (formatter_construct cid cname cidx boc) "component_instance_idx"
      = some (PyVal.int cidx) ∧
    "component_id" ∈ pyKeys (base_format_log_object written_at written_ts
        (formatter_construct cid cname cidx boc) r) := by
  have hfc : formatter_construct cid cname cidx boc =
      pySet (pySet (pySet boc "component_id" (PyVal.str cid))
          "component_name" (PyVal.str cname))
        "component_instance_idx" (PyVal.int cidx) := by
    simp [formatter_construct, h1, h2, h3]
  refine ⟨?_, ?_, ?_, ?_, ?_⟩
  · rw [hfc, mem_pyKeys_pySet, mem_pyKeys_pySet, mem_pyKeys_pySet]
    tauto
  · rw [hfc, pyGet_pySet_ne _ _ _ _ (by decide), pyGet_pySet_ne _ _ _ _ (by decide),
      pyGet_pySet_self]
  · rw [hfc, pyGet_pySet_ne _ _ _ _ (by decide), pyGet_pySet_self]
  · rw [hfc, pyGet_pySet_self]
  · rw [base_format_log_object, mem_pyKeys_pyUpdate, mem_pyKeys_pyUpdate, hfc,
      mem_pyKeys_pySet, mem_pyKeys_pySet, mem_pyKeys_pySet]
    tauto

/-- Claim C10, witness: a concrete construction over a pre-existing entry
`x`, with all three identity fields configured. -/
theorem c10_witness :
    ("x" : String) ∈ pyKeys [("x", PyVal.str "y")] ∧
    pyGet (formatter_construct "svc" "api" 3 [("x", PyVal.str "y")]) "component_id"
      = some (PyVal.str "svc") ∧
    "component_id" ∈ pyKeys (base_format_log_object "t" 0
        (formatter_construct "svc" "api" 3 [("x", PyVal.str "y")]) sampleRecord) :=
  ⟨by decide,
   (c10_shared_identity_dict "svc" "api" 3 [("x", PyVal.str "y")] "x" "t" 0
      sampleRecord (by decide) (by decide) (by decide) (by decide)).2.1,
   (c10_shared_identity_dict "svc" "api" 3 [("x", PyVal.str "y")] "x" "t" 0
      sampleRecord (by decide) (by decide) (by decide) (by decide)).2.2.2.2⟩

/-- Claim C4, counterexample: a successful `init_flask(enable_json=True)`
sets `ENABLE_JSON_LOGGING`; the failing second initialization call then
overwrites it to `False` before raising, so the process-wide configuration
is not immutable after the first initialization. -/
theorem c4_counterexample :
    init_core (some "flask") Option.none true freshState
      = Except.ok stateAfterFlaskInit ∧
    stateAfterFlaskInit.enable_json_logging = true ∧
    init_core (some "flask") Option.none false stateAfterFlaskInit
      = Except.error (InitError.alreadyInited, stateAfterFailedSecondInit) ∧
    stateAfterFailedSecondInit.enable_json_logging = false := by
  refine ⟨by decide, by decide, by decide, by decide⟩

/-- Claim C4, amended: a second initialization call that fails with the
double-initialization error leaves the framework registry, the active
framework entry and the chosen default formatter unchanged, but it has
already overwritten `ENABLE_JSON_LOGGING` with the failing call's
`enable_json` argument (source line 179 runs before the guard on line
180). -/
theorem c4_failed_second_init (fn : Option String) (cf : Option ClassRef)
    (ej : Bool) (st st' : LoggingState)
    (h : init_core fn cf ej st = Except.error (InitError.alreadyInited, st')) :
    st'.framework_support_map = st.framework_support_map ∧
    st'.current_framework = st.current_framework ∧
    st'.default_formatter = st.default_formatter ∧
    st'.enable_json_logging = ej := by
  simp only [init_core] at h
  split at h
  · simp only [Except.error.injEq, Prod.mk.injEq, true_and] at h
    subst h
    exact ⟨rfl, rfl, rfl, rfl⟩
  · split at h
    · simp at h
    · split at h
      · split at h
        · simp at h
        · split at h
          · simp at h
          · simp at h
      · simp at h

/-- Claim C4, witness: the concrete failing second call after a flask
initialization, with its final state. -/
theorem c4_witness :
    init_core (some "sanic") Option.none false stateAfterFlaskInit
      = Except.error (InitError.alreadyInited, stateAfterFailedSecondInit) ∧
    stateAfterFailedSecondInit.current_framework
      = stateAfterFlaskInit.current_framework ∧
    stateAfterFailedSecondInit.enable_json_logging = false :=
  ⟨by decide,
   (c4_failed_second_init (some "sanic") Option.none false stateAfterFlaskInit
      stateAfterFailedSecondInit (by decide)).2.1,
   (c4_failed_second_init (some "sanic") Option.none false stateAfterFlaskInit
      stateAfterFailedSecondInit (by decide)).2.2.2⟩

end JsonLogging
